import Mathlib

/-!
Shallow embedding of the sphinx-kroki extension
(src/sphinx_kroki/sphinx_kroki.py): the directive parser `Kroki.run`,
the cache/render pipeline `render_kroki`, and the HTML embedder
`render_html`.  External collaborators (the `requests` HTTP library,
the filesystem, and the Sphinx/docutils host framework) are modelled
as explicit data threaded through the definitions; Python's
`hashlib.sha1` is embedded as a full executable SHA-1 so that cache
keys and artifact filenames compute concretely.
-/

namespace SphinxKroki

/-! ## SHA-1 (Python `hashlib.sha1(...).hexdigest()`) -/

/-- Reduction modulo 2^32, the word size of SHA-1. -/
def mod32 (n : Nat) : Nat := n % 4294967296

/-- Left rotation of a 32-bit word by `n` places (for `x < 2^32`). -/
def rotl32 (x n : Nat) : Nat := mod32 (x <<< n) ||| (x >>> (32 - n))

/-- UTF-8 encoding of a single Unicode code point as a byte list
(Python `str.encode()` uses UTF-8). -/
def utf8EncodeCharNat (c : Nat) : List Nat :=
  if c < 128 then [c]
  else if c < 2048 then [192 ||| (c >>> 6), 128 ||| (c &&& 63)]
  else if c < 65536 then
    [224 ||| (c >>> 12), 128 ||| ((c >>> 6) &&& 63), 128 ||| (c &&& 63)]
  else
    [240 ||| (c >>> 18), 128 ||| ((c >>> 12) &&& 63),
     128 ||| ((c >>> 6) &&& 63), 128 ||| (c &&& 63)]

/-- UTF-8 bytes of a string. -/
def utf8Bytes (s : String) : List Nat :=
  (s.data.map (fun c => utf8EncodeCharNat c.toNat)).flatten

/-- Big-endian 8-byte encoding of a natural number (the SHA-1 length field). -/
def be64 (n : Nat) : List Nat :=
  (List.range 8).map (fun i => (n >>> (56 - 8 * i)) &&& 255)

/-- SHA-1 padding: append `0x80`, zero bytes to reach 56 mod 64, then the
bit length as a big-endian 64-bit integer. -/
def sha1Pad (msg : List Nat) : List Nat :=
  let ml := msg.length
  let z := (64 + 56 - ((ml + 1) % 64)) % 64
  msg ++ [128] ++ List.replicate z 0 ++ be64 (ml * 8)

/-- Split a byte list into 64-byte chunks; `fuel` bounds the recursion depth
(structural recursion so the kernel can evaluate it; `fuel = l.length`
always suffices since each step consumes at least one element). -/
def chunks64Go : Nat → List Nat → List (List Nat)
  | _, [] => []
  | 0, l => [l]
  | fuel + 1, b :: rest =>
    (b :: rest).take 64 :: chunks64Go fuel ((b :: rest).drop 64)

/-- Split a byte list into 64-byte chunks. -/
def chunks64 (l : List Nat) : List (List Nat) := chunks64Go l.length l

/-- The sixteen initial 32-bit big-endian words of a 64-byte chunk. -/
def wordsOfChunk (chunk : List Nat) : List Nat :=
  (List.range 16).map (fun i =>
    (chunk.getD (4 * i) 0) <<< 24 ||| (chunk.getD (4 * i + 1) 0) <<< 16 |||
    (chunk.getD (4 * i + 2) 0) <<< 8 ||| chunk.getD (4 * i + 3) 0)

/-- Extend the sixteen chunk words by `k` further schedule words
(`w[i] = rotl1 (w[i-3] xor w[i-8] xor w[i-14] xor w[i-16])`). -/
def sha1Extend (w : List Nat) : Nat → List Nat
  | 0 => w
  | k + 1 =>
    let n := w.length
    let x := (w.getD (n - 3) 0) ^^^ (w.getD (n - 8) 0) ^^^
             (w.getD (n - 14) 0) ^^^ (w.getD (n - 16) 0)
    sha1Extend (w ++ [rotl32 x 1]) k

/-- One SHA-1 compression round over the 80-word schedule. -/
def sha1Round (w : List Nat) (st : Nat × Nat × Nat × Nat × Nat) (i : Nat) :
    Nat × Nat × Nat × Nat × Nat :=
  let (a, b, c, d, e) := st
  let f :=
    if i < 20 then (b &&& c) ||| ((b ^^^ 4294967295) &&& d)
    else if i < 40 then b ^^^ c ^^^ d
    else if i < 60 then (b &&& c) ||| (b &&& d) ||| (c &&& d)
    else b ^^^ c ^^^ d
  let k :=
    if i < 20 then 1518500249
    else if i < 40 then 1859775393
    else if i < 60 then 2400959708
    else 3395469782
  let temp := mod32 (rotl32 a 5 + f + e + k + w.getD i 0)
  (temp, a, rotl32 b 30, c, d)

/-- SHA-1 compression of one 64-byte chunk into the running state. -/
def sha1Compress (h : Nat × Nat × Nat × Nat × Nat) (chunk : List Nat) :
    Nat × Nat × Nat × Nat × Nat :=
  let w := sha1Extend (wordsOfChunk chunk) 64
  let (h0, h1, h2, h3, h4) := h
  let (a, b, c, d, e) := (List.range 80).foldl (sha1Round w) (h0, h1, h2, h3, h4)
  (mod32 (h0 + a), mod32 (h1 + b), mod32 (h2 + c), mod32 (h3 + d), mod32 (h4 + e))

/-- Hexadecimal digit character (lowercase, as Python's `hexdigest`). -/
def hexDigit (n : Nat) : Char :=
  if n < 10 then Char.ofNat (48 + n) else Char.ofNat (87 + n)

/-- Two-digit lowercase hex encoding of a byte. -/
def hexByte (b : Nat) : List Char := [hexDigit (b / 16), hexDigit (b % 16)]

/-- The four big-endian bytes of a 32-bit word. -/
def wordBytes (h : Nat) : List Nat :=
  [(h >>> 24) &&& 255, (h >>> 16) &&& 255, (h >>> 8) &&& 255, h &&& 255]

/-- SHA-1 hex digest of a byte list. -/
def sha1HexBytes (msg : List Nat) : String :=
  let init : Nat × Nat × Nat × Nat × Nat :=
    (1732584193, 4023233417, 2562383102, 271733878, 3285377520)
  let (h0, h1, h2, h3, h4) := (chunks64 (sha1Pad msg)).foldl sha1Compress init
  String.mk ((([h0, h1, h2, h3, h4].map wordBytes).flatten.map hexByte).flatten)

/-- Python `sha1(s.encode()).hexdigest()`. -/
def sha1Hex (s : String) : String := sha1HexBytes (utf8Bytes s)

set_option maxRecDepth 100000
set_option maxHeartbeats 1000000

example : sha1Hex "abc" = "a9993e364706816aba3e25717850c26c9cd0d89d" := by rfl

example : sha1Hex "" = "da39a3ee5e6b4b0d3255bfef95601890afd80709" := by rfl

/-! ## Python string formatting helpers -/

/-- Single-quote character. -/
def sq : Char := Char.ofNat 39

/-- Double-quote character. -/
def dq : Char := Char.ofNat 34

/-- Backslash character. -/
def bsl : Char := Char.ofNat 92

/-- Opening curly brace as a string. -/
def lbrace : String := String.singleton (Char.ofNat 123)

/-- Closing curly brace as a string. -/
def rbrace : String := String.singleton (Char.ofNat 125)

/-- Escaping of one character inside a Python `repr` of a string quoted
with `q`: backslash and the quote are backslash-escaped, newline,
carriage return and tab use their mnemonic escapes, other control
characters use a hex escape, everything else is kept as-is. -/
def pyEscapeChar (q : Char) (c : Char) : List Char :=
  if c = bsl then [bsl, bsl]
  else if c = q then [bsl, q]
  else if c.toNat = 10 then [bsl, Char.ofNat 110]
  else if c.toNat = 13 then [bsl, Char.ofNat 114]
  else if c.toNat = 9 then [bsl, Char.ofNat 116]
  else if c.toNat < 32 ∨ c.toNat = 127 then [bsl, Char.ofNat 120] ++ hexByte c.toNat
  else [c]

/-- Python `repr` of a string (as interpolated by `%r` and by `str` of a
dict): single-quoted, unless the string contains a single quote and no
double quote, in which case double-quoted. -/
def pyReprStr (s : String) : String :=
  let q := if s.contains sq ∧ ¬ s.contains dq then dq else sq
  String.singleton q ++ String.mk ((s.data.map (pyEscapeChar q)).flatten)
    ++ String.singleton q

/-- Python `str(payload)` for the dict literal built in `render_kroki`:
keys in insertion order `diagram_source`, `diagram_type`, `output_format`,
each key and value rendered with `repr`. -/
def payloadStr (diagram_source diagram_type output_format : String) : String :=
  lbrace ++ pyReprStr "diagram_source" ++ ": " ++ pyReprStr diagram_source
    ++ ", " ++ pyReprStr "diagram_type" ++ ": " ++ pyReprStr diagram_type
    ++ ", " ++ pyReprStr "output_format" ++ ": " ++ pyReprStr output_format
    ++ rbrace

/-- The characters Python `str.strip()` removes (ASCII whitespace:
space, tab, newline, carriage return, vertical tab, form feed). -/
def pyIsSpace (c : Char) : Bool :=
  c == Char.ofNat 32 || c == Char.ofNat 9 || c == Char.ofNat 10 ||
  c == Char.ofNat 13 || c == Char.ofNat 11 || c == Char.ofNat 12

/-- Python `str.strip()`: drop leading and trailing whitespace. -/
def pyStrip (s : String) : String :=
  String.mk (((s.data.dropWhile pyIsSpace).reverse.dropWhile pyIsSpace).reverse)

/-- Truthiness test of `s.strip()` (an empty string is falsy). -/
def strippedEmpty (s : String) : Bool := (pyStrip s).data.isEmpty

/-- Two-argument `posixpath.join` (also `os.path.join` on the POSIX build
the extension runs on): an absolute second component replaces the first,
otherwise they are joined with a single separator. -/
def posixJoin (a b : String) : String :=
  if b.startsWith "/" then b
  else if a = "" ∨ a.endsWith "/" then a ++ b
  else a ++ "/" ++ b

/-- Characters of the last path component (after the last slash). -/
def basenameChars (cs : List Char) : List Char :=
  (cs.reverse.takeWhile (fun c => c ≠ '/')).reverse

/-- Extension part of `os.path.splitext(p)[1]`: the suffix of the last
component starting at its last dot, provided some character of the
component before that dot is not itself a dot (so dotfiles like
`.profile` have no extension). -/
def splitextExt (p : String) : String :=
  let base := basenameChars p.data
  match base.reverse.findIdx? (fun c => c = '.') with
  | none => ""
  | some k =>
    let i := base.length - 1 - k
    if (base.take i).any (fun c => c ≠ '.') then String.mk (base.drop i)
    else ""

example : splitextExt "/src/diagram.puml" = ".puml" := by rfl
example : splitextExt "/src/.profile" = "" := by rfl
example : splitextExt "/src/archive.tar.gz" = ".gz" := by rfl

/-- Modelled from docutils `HTMLTranslator.encode` (host-framework
collaborator): HTML-escapes ampersand, angle brackets, double quote,
at-sign and non-breaking space. -/
def htmlEncodeChar (c : Char) : List Char :=
  if c = '&' then "&amp;".data
  else if c = '<' then "&lt;".data
  else if c = dq then "&quot;".data
  else if c = '>' then "&gt;".data
  else if c = '@' then "&#64;".data
  else if c.toNat = 160 then "&nbsp;".data
  else [c]

/-- HTML escaping of a full string, character by character. -/
def htmlEncode (s : String) : String :=
  String.mk ((s.data.map htmlEncodeChar).flatten)

/-! ## External world: builder configuration, filesystem, HTTP -/

/-- The slice of the Sphinx `Builder` that `render_kroki` and
`render_html` read: the three `kroki` config values plus the builder's
image path/output directory attributes. -/
structure Builder where
  kroki_url : String
  kroki_output_format : String
  kroki_inline_svg : Bool
  imgpath : String
  outdir : String
  imagedir : String

/-- Filesystem contents: an association list from absolute path to file
bytes. -/
abbrev FS := List (String × List Nat)

/-- Python `os.path.isfile`. -/
def isfile (fs : FS) (p : String) : Bool := (fs.lookup p).isSome

/-- Create or overwrite a file (Python `open(p, 'wb')` plus writes). -/
def setFile (fs : FS) (p : String) (content : List Nat) : FS :=
  (p, content) :: fs.filter (fun e => e.1 != p)

/-- Behaviour of the one `requests.post` this request would perform:
either a `requests.exceptions.RequestException` is raised, or a response
with a final status code and body bytes comes back. -/
inductive PostResult where
  | exc
  | resp (status : Nat) (body : List Nat)

/-- Behaviour of the artifact write: succeed, fail when opening the
destination file (no file is created), or fail after `k` streamed
128-byte chunks (a truncated file remains). -/
inductive WriteBehavior where
  | ok
  | openFail
  | failAfter (k : Nat)

/-- The external world a single `render_kroki` call interacts with. -/
structure World where
  fs : FS
  post : PostResult
  write : WriteBehavior
  ensuredirOk : Bool

/-- The single error type of the render pipeline (`KrokiError`),
distinguished by which `except` clause raised it. -/
inductive KrokiErr where
  | renderFailed
  | writeFailed (outfn : String)
deriving DecidableEq

/-- The message a `KrokiErr` carries. -/
def KrokiErr.message : KrokiErr → String
  | .renderFailed => "kroki did not produce a diagram"
  | .writeFailed outfn => "Unable to write diagram to file " ++ pyReprStr outfn

/-- Result of a `render_kroki` call: the returned pair or raised error,
the filesystem afterwards, and how many HTTP POSTs were performed. -/
structure RenderResult where
  outcome : Except KrokiErr (String × String)
  fs : FS
  posts : Nat

/-- Modelled from `requests.Response.raise_for_status`: raises `HTTPError`
exactly for client-error (4xx) and server-error (5xx) status codes. -/
def raise_for_status (status : Nat) : Bool :=
  decide (400 ≤ status ∧ status < 600)

/-! ## render_kroki -/

/-- The bytes hashed into the cache key:
`(str(kroki_url) + str(payload)).encode()`. -/
def hashkeyOf (kroki_url diagram_source diagram_type output_format : String) :
    String :=
  kroki_url ++ payloadStr diagram_source diagram_type output_format

/-- The derived artifact filename
`'%s-%s.%s' % (prefix, sha1(hashkey).hexdigest(), output_format)`.
The prefix parameter is called `pfx` because `prefix` is reserved in
Lean. -/
def fnameOf (pfx kroki_url diagram_source diagram_type output_format : String) :
    String :=
  pfx ++ "-" ++ sha1Hex (hashkeyOf kroki_url diagram_source diagram_type
    output_format) ++ "." ++ output_format

/-- The relative (web-servable) artifact path
`posixpath.join(builder.imgpath, fname)`. -/
def relfnOf (builder : Builder) (fname : String) : String :=
  posixJoin builder.imgpath fname

/-- The absolute artifact path
`path.join(builder.outdir, builder.imagedir, fname)`. -/
def outfnOf (builder : Builder) (fname : String) : String :=
  posixJoin (posixJoin builder.outdir builder.imagedir) fname

/-- Shallow embedding of `render_kroki`: derive the cache key and paths,
return immediately on a cache hit, otherwise ensure the directory,
perform the single POST, check the status, and stream the body to the
destination file; `RequestException` maps to the render error and
`IOError` (including from `ensuredir`) to the write error. -/
def render_kroki (builder : Builder) (w : World)
    (diagram_type diagram_source output_format : String)
    (pfx : String := "kroki") : RenderResult :=
  let fname := fnameOf pfx builder.kroki_url diagram_source diagram_type
    output_format
  let relfn := relfnOf builder fname
  let outfn := outfnOf builder fname
  if isfile w.fs outfn then
    { outcome := .ok (relfn, outfn), fs := w.fs, posts := 0 }
  else if ¬ w.ensuredirOk then
    { outcome := .error (.writeFailed outfn), fs := w.fs, posts := 0 }
  else
    match w.post with
    | .exc => { outcome := .error .renderFailed, fs := w.fs, posts := 1 }
    | .resp status body =>
      if raise_for_status status then
        { outcome := .error .renderFailed, fs := w.fs, posts := 1 }
      else
        match w.write with
        | .ok =>
          { outcome := .ok (relfn, outfn), fs := setFile w.fs outfn body,
            posts := 1 }
        | .openFail =>
          { outcome := .error (.writeFailed outfn), fs := w.fs, posts := 1 }
        | .failAfter k =>
          { outcome := .error (.writeFailed outfn),
            fs := setFile w.fs outfn (body.take (128 * k)), posts := 1 }

/-! ## Directive parser -/

/-- The recognized output formats (module-level tuple `formats`). -/
def formats : List String := ["png", "svg", "jpeg", "base64", "txt", "utxt"]

/-- The recognized diagram types (module-level tuple `types`). -/
def types : List String :=
  ["blockdiag", "bpmn", "bytefield", "seqdiag",
   "actdiag", "nwdiag", "packetdiag", "rackdiag",
   "c4plantuml", "ditaa", "erd", "graphviz", "mermaid",
   "nomnoml", "plantuml", "svgbob", "vega", "vegalite",
   "wavedrom"]

/-- The fixed extension-to-type mapping (`extension_type_map`). -/
def extension_type_map : List (String × String) :=
  [(".puml", "plantuml"), (".dot", "graphviz"), (".gv", "graphviz"),
   (".bpmn", "bpmn"), (".ditaa", "ditaa"), (".bob", "svgbob")]

/-- The named options of the directive (`option_spec`).  The `class`
option is called `classOpt` because `class` is reserved in Lean; `type`
and `format` values come through `directives.choice` over `types` and
`formats` respectively, `align` through `align_spec`. -/
structure DirectiveOptions where
  filename : Option String := none
  type : Option String := none
  format : Option String := none
  align : Option String := none
  caption : Option String := none
  classOpt : Option (List String) := none

/-- A parsed directive occurrence: block content lines, positional
arguments, and named options. -/
structure DirectiveInput where
  content : List String := []
  arguments : List String := []
  options : DirectiveOptions := {}

/-- Host-framework collaborators used by `Kroki.run`:
`search_image_for_language` plus `relfn2path` collapse to `resolve`
(returning the docname-relative and absolute paths), and file reading
is `read` (`none` models the `OSError` branch). -/
structure Env where
  resolve : String → String × String
  read : String → Option String
  docname : String

/-- The argument-classification loop of `Kroki.run`: each positional
argument is a diagram type if it is in `types`, an output format if in
`formats`, and a filename otherwise; within each category the last
argument wins.  Returns `(diagram_type, output_format, filename)`. -/
def classifyArgs (arguments : List String) :
    Option String × Option String × Option String :=
  arguments.foldl
    (fun acc argument =>
      if types.contains argument then (some argument, acc.2.1, acc.2.2)
      else if formats.contains argument then (acc.1, some argument, acc.2.2)
      else (acc.1, acc.2.1, some argument))
    (none, none, none)

/-- The attributes the directive stores on the emitted `kroki` node.
Absent `align`/`format` keys are `none`; the node-level `options` dict
holds exactly the docname (see `node_options`). -/
structure kroki where
  type : String
  format : Option String := none
  code : String
  docname : String
  align : Option String := none
  classes : List String := []
deriving DecidableEq

/-- What `Kroki.run` returns: a single warning node from
`document.reporter.warning`, or the `kroki` node, possibly wrapped in a
figure by `figure_wrapper` when a caption is present. -/
inductive RunNodes where
  | warning (msg : String)
  | diagram (node : kroki) (figure : Bool)
deriving DecidableEq

/-- Result of `Kroki.run` together with the dependencies registered via
`env.note_dependency`. -/
structure RunResult where
  nodes : RunNodes
  deps : List String := []

/-- Warning text for the filename-option/filename-argument conflict. -/
def msgAmbiguousFilename : String :=
  "Kroki directive cannot have both filename option and a filename argument"

/-- Warning text for the content/filename conflict. -/
def msgAmbiguousContent : String :=
  "Kroki directive cannot have both content and a filename argument"

/-- Warning text for a failed file read, interpolating the absolute
filename with `%r`. -/
def msgFileNotFound (filename : String) : String :=
  "External kroki file " ++ pyReprStr filename
    ++ " not found or reading it failed"

/-- Warning text for a directive without any diagram content. -/
def msgNoContent : String :=
  "Ignoring kroki directive without content. It is necessary to specify "
    ++ "filename argument/option or content"

/-- Warning text for the type-option/type-argument conflict. -/
def msgAmbiguousType : String :=
  "Kroki directive cannot have both type option and a type argument"

/-- Warning text when no diagram type could be determined. -/
def msgTypeRequired : String :=
  "Kroki directive has to define diagram type."

/-- Warning text for the format-option/format-argument conflict. -/
def msgAmbiguousFormat : String :=
  "Kroki directive cannot have both format option and a format argument"

/-- Continuation of `Kroki.run` after the diagram source is settled
(either block content or the file contents): the missing-content check,
the type conflict/inference/required checks, the format conflict check,
and node construction. -/
def runAfterSource (env : Env) (d : DirectiveInput) (source : String)
    (filename : Option String) (diagram_type output_format : Option String)
    (deps : List String) : RunResult :=
  if strippedEmpty source then { nodes := .warning msgNoContent, deps }
  else if d.options.type.isSome && diagram_type.isSome then
    { nodes := .warning msgAmbiguousType, deps }
  else
    let diagram_type :=
      if d.options.type.isSome then d.options.type else diagram_type
    let diagram_type :=
      match diagram_type, filename with
      | none, some f => extension_type_map.lookup (splitextExt f)
      | dt, _ => dt
    match diagram_type with
    | none => { nodes := .warning msgTypeRequired, deps }
    | some t =>
      if d.options.format.isSome && output_format.isSome then
        { nodes := .warning msgAmbiguousFormat, deps }
      else
        let output_format :=
          if d.options.format.isSome then d.options.format else output_format
        { nodes := .diagram
            { type := t, format := output_format, code := source,
              docname := env.docname, align := d.options.align,
              classes := d.options.classOpt.getD [] }
            d.options.caption.isSome,
          deps }

/-- Shallow embedding of `Kroki.run`: join the content lines, classify
the positional arguments, check the filename and content conflicts,
resolve and read an external file if one was given (registering it as a
dependency), then continue in `runAfterSource`. -/
def Kroki.run (env : Env) (d : DirectiveInput) : RunResult :=
  let source := String.intercalate "\n" d.content
  let diagram_type := (classifyArgs d.arguments).1
  let output_format := (classifyArgs d.arguments).2.1
  let argFilename := (classifyArgs d.arguments).2.2
  if d.options.filename.isSome && argFilename.isSome then
    { nodes := .warning msgAmbiguousFilename }
  else
    let filename :=
      if d.options.filename.isSome then d.options.filename else argFilename
    if !strippedEmpty source && filename.isSome then
      { nodes := .warning msgAmbiguousContent }
    else
      match filename with
      | some f =>
        let ra := env.resolve f
        (match env.read ra.2 with
         | none =>
           { nodes := .warning (msgFileNotFound ra.2), deps := [ra.1] }
         | some text =>
           runAfterSource env d text (some ra.2) diagram_type output_format
             [ra.1])
      | none =>
        runAfterSource env d source none diagram_type output_format []

/-! ## HTML embedder -/

/-- Result of `html_visit_kroki` / `render_html`: the strings appended
to `self.body`, the warning logged (if any), the filesystem and POST
count of the underlying render, and whether `nodes.SkipNode` was
raised. -/
structure HtmlResult where
  body : List String
  warned : Option String
  fs : FS
  posts : Nat
  skipNode : Bool

/-- The warning `render_html` logs on a `KrokiError`:
`'kroki %s diagram (%s) with code %r: %s'` interpolated with the
diagram type, the output format, the repr of the source, and the error
message. -/
def renderWarning (diagram_type output_format diagram_source msg : String) :
    String :=
  "kroki " ++ diagram_type ++ " diagram (" ++ output_format
    ++ ") with code " ++ pyReprStr diagram_source ++ ": " ++ msg

/-- Python `' '.join(filter(None, classes))`: drops `None` entries and
empty strings before joining. -/
def joinClasses (classes : List (Option String)) : String :=
  String.intercalate " " ((classes.filterMap id).filter (fun s => !s.isEmpty))

/-- The `'<div align="%s" class="align-%s">'` wrapper. -/
def alignDiv (a : String) : String :=
  "<div align=\"" ++ a ++ "\" class=\"align-" ++ a ++ "\">"

/-- The `'<a href="%s"><img src="%s" alt="%s" /></a>'` reference. -/
def imgAnchor (href src alt : String) : String :=
  "<a href=\"" ++ href ++ "\"><img src=\"" ++ src ++ "\" alt=\"" ++ alt
    ++ "\" /></a>"

/-- Reading the just-written artifact back as text for inline SVG
(`open(outfn, 'r').read()`), modelled byte-per-character. -/
def bytesToStr (bs : List Nat) : String := String.mk (bs.map Char.ofNat)

/-- Shallow embedding of `render_html`.  On a `KrokiError` it logs the
warning and raises `SkipNode` with nothing appended to the body; on
success it appends the class div, the optional alignment div, then
either the inline artifact text (SVG output with `kroki_inline_svg`
set) or the link-wrapped image whose alt text is
`options.get('caption', diagram_source)` HTML-encoded and stripped, and
closes the divs; both paths raise `SkipNode`.  `render_kroki` always
returns two strings, so the Python `if fname is None` branch is
unreachable and omitted. -/
def render_html (builder : Builder) (w : World) (node : kroki)
    (diagram_type diagram_source : String) (options : List (String × String))
    (pfx : String := "kroki") (kroki_class : Option String := none) :
    HtmlResult :=
  let output_format := node.format.getD builder.kroki_output_format
  let r := render_kroki builder w diagram_type diagram_source output_format pfx
  match r.outcome with
  | .error exc =>
    { body := [],
      warned := some (renderWarning diagram_type output_format diagram_source
        exc.message),
      fs := r.fs, posts := r.posts, skipNode := true }
  | .ok (fname, outfn) =>
    let classes : List (Option String) :=
      [kroki_class, some "kroki", some ("kroki-" ++ diagram_type)]
        ++ node.classes.map some
    let body0 := ["<div class=\"" ++ joinClasses classes ++ "\">"]
    let body1 := body0 ++ (match node.align with
      | some a => [alignDiv a]
      | none => [])
    let body2 := body1 ++
      (if output_format = "svg" && builder.kroki_inline_svg then
        [bytesToStr ((r.fs.lookup outfn).getD [])]
      else
        [imgAnchor fname fname
          (pyStrip (htmlEncode ((options.lookup "caption").getD diagram_source)))])
    let body3 := body2 ++ (match node.align with
      | some _ => ["</div>\n"]
      | none => [])
    { body := body3 ++ ["</div>\n"], warned := none, fs := r.fs,
      posts := r.posts, skipNode := true }

/-- The node-level options dict set by `Kroki.run`:
`{'docname': self.env.docname}` — in particular it never contains a
`caption` key. -/
def node_options (node : kroki) : List (String × String) :=
  [("docname", node.docname)]

/-- Shallow embedding of `html_visit_kroki`: dispatch to `render_html`
with the node attributes. -/
def html_visit_kroki (builder : Builder) (w : World) (node : kroki) :
    HtmlResult :=
  render_html builder w node node.type node.code (node_options node)

/-! ## Derived predicates and helper lemmas -/

/-- Whether the modelled POST raises `RequestException` or yields a
client/server error status (the conditions under which the request
branch of `render_kroki` fails). -/
def postFails : PostResult → Bool
  | .exc => true
  | .resp status _ => raise_for_status status

/-- Whether the modelled artifact write raises `IOError`. -/
def writeFails : WriteBehavior → Bool
  | .ok => false
  | .openFail => true
  | .failAfter _ => true

/-- Whether the call raised `KrokiError` instead of returning. -/
def RenderResult.raised (r : RenderResult) : Bool :=
  match r.outcome with
  | .error _ => true
  | .ok _ => false

/-- Discriminator for `Kroki.run` results: did it return a warning node. -/
def RunNodes.isWarning : RunNodes → Bool
  | .warning _ => true
  | .diagram _ _ => false

/-- Diagram source taken from the directive's block content
(`"\n".join(self.content)`). -/
def contentSource (d : DirectiveInput) : String :=
  String.intercalate "\n" d.content

/-- The filename in effect after merging the `filename` option with the
filename-classified positional argument (the option is only consulted
when present; both present at once is rule 1's conflict). -/
def effFilename (d : DirectiveInput) : Option String :=
  if d.options.filename.isSome then d.options.filename
  else (classifyArgs d.arguments).2.2

/-- Absolute path of the effective filename after host resolution. -/
def resolvedAbs (env : Env) (d : DirectiveInput) : Option String :=
  (effFilename d).map (fun f => (env.resolve f).2)

/-- The diagram source after the optional file read: the file contents
when a filename is in effect (`none` when the read fails), the block
content otherwise. -/
def sourceAfterRead (env : Env) (d : DirectiveInput) : Option String :=
  match effFilename d with
  | some f => env.read (env.resolve f).2
  | none => some (contentSource d)

/-- Rule 1: `filename` option together with a filename argument. -/
def rule1 (d : DirectiveInput) : Bool :=
  d.options.filename.isSome && (classifyArgs d.arguments).2.2.isSome

/-- Rule 2: non-empty block content together with a filename. -/
def rule2 (d : DirectiveInput) : Bool :=
  !strippedEmpty (contentSource d) && (effFilename d).isSome

/-- Rule 3: a filename is in effect but reading it fails. -/
def rule3 (env : Env) (d : DirectiveInput) : Bool :=
  (effFilename d).isSome && (sourceAfterRead env d).isNone

/-- Rule 4: the settled diagram source is empty or whitespace. -/
def rule4 (env : Env) (d : DirectiveInput) : Bool :=
  ((sourceAfterRead env d).map (fun s => strippedEmpty s)).getD false

/-- Rule 5: `type` option together with a type argument. -/
def rule5 (d : DirectiveInput) : Bool :=
  d.options.type.isSome && (classifyArgs d.arguments).1.isSome

/-- The diagram type inferred from the resolved filename's extension. -/
def inferredType (env : Env) (d : DirectiveInput) : Option String :=
  match resolvedAbs env d with
  | some f => extension_type_map.lookup (splitextExt f)
  | none => none

/-- Rule 6: no type option, no type argument, and no inferrable type. -/
def rule6 (env : Env) (d : DirectiveInput) : Bool :=
  !d.options.type.isSome && !(classifyArgs d.arguments).1.isSome &&
    (inferredType env d).isNone

/-- Rule 7: `format` option together with a format argument. -/
def rule7 (d : DirectiveInput) : Bool :=
  d.options.format.isSome && (classifyArgs d.arguments).2.1.isSome

/-- The dependency list `Kroki.run` registers via `env.note_dependency`. -/
def runDeps (env : Env) (d : DirectiveInput) : List String :=
  match effFilename d with
  | some f => [(env.resolve f).1]
  | none => []

/-! ## Concrete instances for witnesses and counterexamples -/

/-- A small concrete builder configuration. -/
def builder0 : Builder :=
  { kroki_url := "u", kroki_output_format := "svg", kroki_inline_svg := false,
    imgpath := "_images", outdir := "/out", imagedir := "_images" }

/-- A world with an empty cache whose POST succeeds with status 200. -/
def worldOk : World :=
  { fs := [], post := .resp 200 [1, 2, 3], write := .ok, ensuredirOk := true }

/-- A world with an empty cache whose POST raises `RequestException`. -/
def worldExc : World :=
  { fs := [], post := .exc, write := .ok, ensuredirOk := true }

/-- A world with an empty cache whose POST returns status 300
(a non-2xx status that `raise_for_status` does not raise on). -/
def world300 : World :=
  { fs := [], post := .resp 300 [1, 2, 3], write := .ok, ensuredirOk := true }

/-- The world after `worldOk` has rendered the request
`("t", "a", "f")`, but whose network and writes would now fail: used to
show the second call never reaches the network. -/
def worldSecond : World :=
  { fs := (render_kroki builder0 worldOk "t" "a" "f" "kroki").fs,
    post := .exc, write := .openFail, ensuredirOk := false }

/-- Concrete parser environment whose only readable file is
`/src/d.puml`. -/
def envP : Env :=
  { resolve := fun f => (f, "/src/" ++ f),
    read := fun p => if p = "/src/d.puml" then some "A -> B" else none,
    docname := "index" }

/-- Directive input with both a filename option and a filename argument. -/
def dConflict : DirectiveInput :=
  { content := [], arguments := ["other.txt"],
    options := { filename := some "x.puml" } }

/-- Directive input with both a type option and a type argument. -/
def dTypeConflict : DirectiveInput :=
  { content := ["x"], arguments := ["mermaid"],
    options := { type := some "plantuml" } }

/-- Directive input with only a `.puml` filename argument. -/
def dPuml : DirectiveInput := { arguments := ["d.puml"] }

/-- Directive input with block content, a type argument and a caption. -/
def d3 : DirectiveInput :=
  { content := ["A -> B"], arguments := ["plantuml"],
    options := { caption := some "My caption" } }

/-- The kroki node `Kroki.run envP d3` produces. -/
def node3 : kroki :=
  { type := "plantuml", code := "A -> B", docname := "index" }

/-- A successful world for rendering `node3`. -/
def w3 : World :=
  { fs := [], post := .resp 200 [60, 62], write := .ok, ensuredirOk := true }

/-- The relative artifact path of `node3` rendered through `builder0`. -/
def relfn3 : String :=
  posixJoin builder0.imgpath (fnameOf "kroki" "u" "A -> B" "plantuml" "svg")

/-- A minimal kroki node for the embedder-failure witness. -/
def node8 : kroki := { type := "t", code := "a", docname := "doc" }

theorem isfile_setFile_self (fs : FS) (p : String) (c : List Nat) :
    isfile (setFile fs p c) p = true := by
  simp [isfile, setFile, List.lookup]

theorem run_rule1 (env : Env) (d : DirectiveInput) (h : rule1 d = true) :
    (Kroki.run env d).nodes = .warning msgAmbiguousFilename := by
  unfold rule1 at h
  simp [Kroki.run, h]

theorem run_rule2 (env : Env) (d : DirectiveInput) (h1 : rule1 d = false)
    (h2 : rule2 d = true) :
    (Kroki.run env d).nodes = .warning msgAmbiguousContent := by
  unfold rule1 at h1
  unfold rule2 effFilename contentSource at h2
  simp only [Kroki.run, h1, h2]
  simp

theorem run_rule3 (env : Env) (d : DirectiveInput) (h1 : rule1 d = false)
    (h2 : rule2 d = false) (h3 : rule3 env d = true) :
    (Kroki.run env d).nodes =
      .warning (msgFileNotFound ((resolvedAbs env d).getD "")) := by
  unfold rule1 at h1
  unfold rule3 at h3
  rcases hf : effFilename d with _ | f
  · rw [hf] at h3; simp at h3
  · have hr : env.read (env.resolve f).2 = none := by
      rw [hf] at h3
      unfold sourceAfterRead at h3
      rw [hf] at h3
      simpa using h3
    unfold rule2 at h2
    rw [hf] at h2
    unfold contentSource at h2
    simp only [Option.isSome_some, Bool.and_true, Bool.not_eq_true'] at h2
    unfold effFilename at hf
    simp only [Kroki.run, h1, Bool.false_eq_true, if_false, hf, h2, hr]
    simp [resolvedAbs, effFilename, hf]

theorem sourceAfterRead_none_rule3 (env : Env) (d : DirectiveInput)
    (hs : sourceAfterRead env d = none) : rule3 env d = true := by
  unfold rule3
  unfold sourceAfterRead at hs ⊢
  rcases hf : effFilename d with _ | f
  · rw [hf] at hs; simp at hs
  · rw [hf] at hs
    simp at hs
    simp [hs]

theorem rule4_false_some (env : Env) (d : DirectiveInput) (s : String)
    (h4 : rule4 env d = false) (hs : sourceAfterRead env d = some s) :
    strippedEmpty s = false := by
  unfold rule4 at h4
  rw [hs] at h4
  simpa using h4

/-- Past rules 1-3, `Kroki.run` is `runAfterSource` on the settled
source, the resolved absolute filename, the classified type/format
arguments, and the registered dependencies. -/
theorem run_eq_afterSource (env : Env) (d : DirectiveInput) (s : String)
    (h1 : rule1 d = false) (h2 : rule2 d = false)
    (hs : sourceAfterRead env d = some s) :
    Kroki.run env d = runAfterSource env d s (resolvedAbs env d)
      (classifyArgs d.arguments).1 (classifyArgs d.arguments).2.1
      (runDeps env d) := by
  unfold rule1 at h1
  unfold sourceAfterRead at hs
  rcases hf : effFilename d with _ | f
  · rw [hf] at hs
    have hsc : contentSource d = s := by simpa using hs
    have hfn : (if d.options.filename.isSome then d.options.filename
        else (classifyArgs d.arguments).2.2) = none := by
      unfold effFilename at hf; exact hf
    have hra : resolvedAbs env d = none := by
      unfold resolvedAbs; rw [hf]; rfl
    have hrd : runDeps env d = [] := by
      unfold runDeps; rw [hf]
    rw [hra, hrd, ← hsc]
    simp only [Kroki.run, h1, Bool.false_eq_true, if_false, hfn]
    simp [contentSource]
  · rw [hf] at hs
    simp at hs
    unfold rule2 at h2
    rw [hf] at h2
    simp only [Option.isSome_some, Bool.and_true, Bool.not_eq_false'] at h2
    have hfn : (if d.options.filename.isSome then d.options.filename
        else (classifyArgs d.arguments).2.2) = some f := by
      unfold effFilename at hf; exact hf
    have hra : resolvedAbs env d = some (env.resolve f).2 := by
      unfold resolvedAbs; rw [hf]; rfl
    have hrd : runDeps env d = [(env.resolve f).1] := by
      unfold runDeps; rw [hf]
    have hc : strippedEmpty (String.intercalate "\n" d.content) = true := by
      unfold contentSource at h2
      simpa using h2
    rw [hra, hrd]
    simp only [Kroki.run, h1, Bool.false_eq_true, if_false, hfn, hc, hs]
    simp

theorem run_rule4 (env : Env) (d : DirectiveInput) (h1 : rule1 d = false)
    (h2 : rule2 d = false) (h3 : rule3 env d = false)
    (h4 : rule4 env d = true) :
    (Kroki.run env d).nodes = .warning msgNoContent := by
  rcases hs : sourceAfterRead env d with _ | s
  · rw [sourceAfterRead_none_rule3 env d hs] at h3; exact absurd h3 (by simp)
  · have h4' : strippedEmpty s = true := by
      unfold rule4 at h4; rw [hs] at h4; simpa using h4
    rw [run_eq_afterSource env d s h1 h2 hs]
    simp [runAfterSource, h4']

theorem run_rule5 (env : Env) (d : DirectiveInput) (h1 : rule1 d = false)
    (h2 : rule2 d = false) (h3 : rule3 env d = false)
    (h4 : rule4 env d = false) (h5 : rule5 d = true) :
    (Kroki.run env d).nodes = .warning msgAmbiguousType := by
  rcases hs : sourceAfterRead env d with _ | s
  · rw [sourceAfterRead_none_rule3 env d hs] at h3; exact absurd h3 (by simp)
  · have hne := rule4_false_some env d s h4 hs
    rw [run_eq_afterSource env d s h1 h2 hs]
    unfold rule5 at h5
    simp [runAfterSource, hne, h5]

theorem run_rule6 (env : Env) (d : DirectiveInput) (h1 : rule1 d = false)
    (h2 : rule2 d = false) (h3 : rule3 env d = false)
    (h4 : rule4 env d = false) (h6 : rule6 env d = true) :
    (Kroki.run env d).nodes = .warning msgTypeRequired := by
  rcases hs : sourceAfterRead env d with _ | s
  · rw [sourceAfterRead_none_rule3 env d hs] at h3; exact absurd h3 (by simp)
  · have hne := rule4_false_some env d s h4 hs
    rw [run_eq_afterSource env d s h1 h2 hs]
    unfold rule6 at h6
    simp only [Bool.and_eq_true, Bool.not_eq_true'] at h6
    obtain ⟨⟨hto, hta⟩, hinf⟩ := h6
    have hto' : d.options.type = none := by
      rcases h : d.options.type with _ | t
      · rfl
      · rw [h] at hto; simp at hto
    have hta' : (classifyArgs d.arguments).1 = none := by
      rcases h : (classifyArgs d.arguments).1 with _ | t
      · rfl
      · rw [h] at hta; simp at hta
    unfold inferredType at hinf
    rcases hra : resolvedAbs env d with _ | f
    · simp [runAfterSource, hne, hto', hta', hra]
    · rw [hra] at hinf
      simp only [Option.isNone_iff_eq_none] at hinf
      simp [runAfterSource, hne, hto', hta', hra, hinf]

theorem run_rule7 (env : Env) (d : DirectiveInput) (h1 : rule1 d = false)
    (h2 : rule2 d = false) (h3 : rule3 env d = false)
    (h4 : rule4 env d = false) (h5 : rule5 d = false)
    (h6 : rule6 env d = false) (h7 : rule7 d = true) :
    (Kroki.run env d).nodes = .warning msgAmbiguousFormat := by
  rcases hs : sourceAfterRead env d with _ | s
  · rw [sourceAfterRead_none_rule3 env d hs] at h3; exact absurd h3 (by simp)
  · have hne := rule4_false_some env d s h4 hs
    rw [run_eq_afterSource env d s h1 h2 hs]
    unfold rule7 at h7
    rcases hto : d.options.type with _ | t0
    · rcases hta : (classifyArgs d.arguments).1 with _ | t1
      · rcases hit : inferredType env d with _ | t
        · unfold rule6 at h6
          rw [hto, hta, hit] at h6
          simp at h6
        · unfold inferredType at hit
          rcases hra : resolvedAbs env d with _ | f
          · rw [hra] at hit; simp at hit
          · rw [hra] at hit
            simp at hit
            simp [runAfterSource, hne, hto, hta, hra, hit, h7]
      · simp [runAfterSource, hne, hto, hta, h7]
    · have hta : (classifyArgs d.arguments).1.isSome = false := by
        unfold rule5 at h5
        rw [hto] at h5
        simpa using h5
      simp [runAfterSource, hne, hto, hta, h7]

theorem render_kroki_ok_cases (builder : Builder) (w : World)
    (dt ds of pfx : String) (pr : String × String) :
    (render_kroki builder w dt ds of pfx).outcome = .ok pr →
    pr = (relfnOf builder (fnameOf pfx builder.kroki_url ds dt of),
          outfnOf builder (fnameOf pfx builder.kroki_url ds dt of)) ∧
    isfile (render_kroki builder w dt ds of pfx).fs
      (outfnOf builder (fnameOf pfx builder.kroki_url ds dt of)) = true := by
  simp only [render_kroki]
  split
  next hhit => intro h; simp_all
  next hmiss =>
    split
    next => intro h; simp_all
    next =>
      split
      next => intro h; simp_all
      next status body =>
        split
        next => intro h; simp_all
        next =>
          split
          next => intro h; simp_all [isfile_setFile_self]
          next => intro h; simp_all
          next k => intro h; simp_all

/-! ## Claims -/

/-- Claim C1: if the derived artifact file already exists, `render_kroki`
returns the (relative, absolute) pair with zero POSTs and an unchanged
filesystem; consequently a second call with the same
(service URL, source, type, format) key against the filesystem produced
by a successful first call performs zero POSTs and returns the same
pair. -/
theorem claim1_cache_hit_no_network (builder : Builder) (w w' : World)
    (dt ds of pfx : String) :
    (isfile w.fs (outfnOf builder (fnameOf pfx builder.kroki_url ds dt of)) = true →
      render_kroki builder w dt ds of pfx =
        { outcome := .ok (relfnOf builder (fnameOf pfx builder.kroki_url ds dt of),
                          outfnOf builder (fnameOf pfx builder.kroki_url ds dt of)),
          fs := w.fs, posts := 0 }) ∧
    (∀ pr, (render_kroki builder w dt ds of pfx).outcome = .ok pr →
      w'.fs = (render_kroki builder w dt ds of pfx).fs →
      (render_kroki builder w' dt ds of pfx).outcome = .ok pr ∧
      (render_kroki builder w' dt ds of pfx).posts = 0) := by
  constructor
  · intro h
    simp [render_kroki, h]
  · intro pr h1 h2
    obtain ⟨hpr, hfile⟩ := render_kroki_ok_cases builder w dt ds of pfx pr h1
    have hfile' : isfile w'.fs
        (outfnOf builder (fnameOf pfx builder.kroki_url ds dt of)) = true := by
      rw [h2]; exact hfile
    subst hpr
    exact ⟨by simp [render_kroki, hfile'], by simp [render_kroki, hfile']⟩

/-- Witness for C1: a concrete miss-then-hit pair of worlds; the second
world's network and filesystem writes would fail, yet the call returns
the cached pair with zero POSTs. -/
theorem claim1_witness :
    (render_kroki builder0 worldSecond "t" "a" "f" "kroki").outcome =
      .ok (relfnOf builder0 (fnameOf "kroki" "u" "a" "t" "f"),
           outfnOf builder0 (fnameOf "kroki" "u" "a" "t" "f")) ∧
    (render_kroki builder0 worldSecond "t" "a" "f" "kroki").posts = 0 :=
  (claim1_cache_hit_no_network builder0 worldOk worldSecond "t" "a" "f"
    "kroki").2
    (relfnOf builder0 (fnameOf "kroki" "u" "a" "t" "f"),
     outfnOf builder0 (fnameOf "kroki" "u" "a" "t" "f"))
    (by rfl) (by rfl)

/-- Claim C2: cache-key derivation is deterministic — equal inputs give
an equal hash key and an equal artifact filename. -/
theorem claim2_cache_key_deterministic (u1 u2 s1 s2 t1 t2 f1 f2 p1 p2 : String)
    (hu : u1 = u2) (hs : s1 = s2) (ht : t1 = t2) (hf : f1 = f2)
    (hp : p1 = p2) :
    hashkeyOf u1 s1 t1 f1 = hashkeyOf u2 s2 t2 f2 ∧
    fnameOf p1 u1 s1 t1 f1 = fnameOf p2 u2 s2 t2 f2 := by
  subst hu; subst hs; subst ht; subst hf; subst hp
  exact ⟨rfl, rfl⟩

/-- Witness for C2 at concrete inputs. -/
theorem claim2_witness :
    hashkeyOf "u" "a" "t" "f" = hashkeyOf "u" "a" "t" "f" ∧
    fnameOf "kroki" "u" "a" "t" "f" = fnameOf "kroki" "u" "a" "t" "f" :=
  claim2_cache_key_deterministic "u" "u" "a" "a" "t" "t" "f" "f" "kroki" "kroki"
    rfl rfl rfl rfl rfl

/-- Claim C7 (amended): `render_kroki` raises `KrokiError` exactly when,
on a cache miss, ensuring the directory fails, the POST raises, the
response status is 4xx/5xx, or writing the artifact fails; at most one
POST is ever performed (no retry). -/
theorem claim7_error_exactly_on_failure (builder : Builder) (w : World)
    (dt ds of pfx : String) :
    ((render_kroki builder w dt ds of pfx).raised = true ↔
      (isfile w.fs (outfnOf builder (fnameOf pfx builder.kroki_url ds dt of))
          = false ∧
        (w.ensuredirOk = false ∨ postFails w.post = true ∨
          writeFails w.write = true))) ∧
    (render_kroki builder w dt ds of pfx).posts ≤ 1 := by
  simp only [render_kroki]
  split
  next hhit => simp_all [RenderResult.raised]
  next hmiss =>
    split
    next => simp_all [RenderResult.raised]
    next =>
      split
      next => simp_all [RenderResult.raised, postFails]
      next status body =>
        split
        next => simp_all [RenderResult.raised, postFails]
        next hst =>
          split
          next => simp_all [RenderResult.raised, postFails, writeFails]
          next => simp_all [RenderResult.raised, postFails, writeFails]
          next k => simp_all [RenderResult.raised, postFails, writeFails]

/-- Witness for C7 (amended) at a concrete failing world. -/
theorem claim7_witness :
    (render_kroki builder0 worldExc "t" "a" "f" "kroki").posts ≤ 1 :=
  (claim7_error_exactly_on_failure builder0 worldExc "t" "a" "f" "kroki").2

/-- Counterexample to C7 as stated: a final response status of 300 is not
a success (2xx) status, yet `render_kroki` raises nothing and returns the
path pair, because `raise_for_status` only raises for 4xx/5xx. -/
theorem claim7_counterexample :
    (render_kroki builder0 world300 "t" "a" "f" "kroki").raised = false ∧
    ¬ (200 ≤ 300 ∧ 300 < 300) :=
  ⟨by rfl, by decide⟩

/-- Claim C9: on any successful call the returned relative path joins the
builder's image path prefix to the artifact filename, the absolute path
lives under the build output directory's image subdirectory, the
filename is `<prefix>-<hex(sha1 digest)>.<output_format>`, and the
artifact exists on disk afterwards. -/
theorem claim9_artifact_filename_layout (builder : Builder) (w : World)
    (dt ds of pfx : String) (pr : String × String)
    (h : (render_kroki builder w dt ds of pfx).outcome = .ok pr) :
    pr = (posixJoin builder.imgpath (fnameOf pfx builder.kroki_url ds dt of),
          posixJoin (posixJoin builder.outdir builder.imagedir)
            (fnameOf pfx builder.kroki_url ds dt of)) ∧
    fnameOf pfx builder.kroki_url ds dt of =
      pfx ++ "-" ++ sha1Hex (hashkeyOf builder.kroki_url ds dt of) ++ "." ++ of ∧
    isfile (render_kroki builder w dt ds of pfx).fs
      (posixJoin (posixJoin builder.outdir builder.imagedir)
        (fnameOf pfx builder.kroki_url ds dt of)) = true := by
  obtain ⟨hpr, hfile⟩ := render_kroki_ok_cases builder w dt ds of pfx pr h
  subst hpr
  refine ⟨?_, ?_, ?_⟩
  · simp only [relfnOf, outfnOf]
  · simp only [fnameOf]
  · simpa only [outfnOf] using hfile

/-- Witness for C9 at a concrete cache-miss success. -/
theorem claim9_witness :
    (posixJoin builder0.imgpath (fnameOf "kroki" "u" "a" "t" "f"),
      posixJoin (posixJoin builder0.outdir builder0.imagedir)
        (fnameOf "kroki" "u" "a" "t" "f")) =
      (posixJoin builder0.imgpath (fnameOf "kroki" "u" "a" "t" "f"),
       posixJoin (posixJoin builder0.outdir builder0.imagedir)
         (fnameOf "kroki" "u" "a" "t" "f")) ∧
    fnameOf "kroki" "u" "a" "t" "f" =
      "kroki" ++ "-" ++ sha1Hex (hashkeyOf "u" "a" "t" "f") ++ "." ++ "f" ∧
    isfile (render_kroki builder0 worldOk "t" "a" "f" "kroki").fs
      (posixJoin (posixJoin builder0.outdir builder0.imagedir)
        (fnameOf "kroki" "u" "a" "t" "f")) = true :=
  claim9_artifact_filename_layout builder0 worldOk "t" "a" "f" "kroki"
    (posixJoin builder0.imgpath (fnameOf "kroki" "u" "a" "t" "f"),
     posixJoin (posixJoin builder0.outdir builder0.imagedir)
       (fnameOf "kroki" "u" "a" "t" "f"))
    (by rfl)

/-- Claim C10: whenever the POST fails (exception or 4xx/5xx status) the
filesystem is unchanged — in particular no artifact appears at the
derived cache path, because the destination file is only opened after
`raise_for_status` succeeds. -/
theorem claim10_no_artifact_on_http_failure (builder : Builder) (w : World)
    (dt ds of pfx : String) (h : postFails w.post = true) :
    (render_kroki builder w dt ds of pfx).fs = w.fs ∧
    isfile (render_kroki builder w dt ds of pfx).fs
      (outfnOf builder (fnameOf pfx builder.kroki_url ds dt of)) =
    isfile w.fs (outfnOf builder (fnameOf pfx builder.kroki_url ds dt of)) := by
  have hfs : (render_kroki builder w dt ds of pfx).fs = w.fs := by
    simp only [render_kroki]
    split
    next => rfl
    next =>
      split
      next => rfl
      next =>
        split
        next => rfl
        next status body =>
          split
          next => rfl
          next hst => simp_all [postFails, raise_for_status]
  exact ⟨hfs, by rw [hfs]⟩

/-- Witness for C10 at a concrete world whose POST raises. -/
theorem claim10_witness :
    (render_kroki builder0 worldExc "t" "a" "f" "kroki").fs = worldExc.fs :=
  (claim10_no_artifact_on_http_failure builder0 worldExc "t" "a" "f" "kroki"
    (by rfl)).1

theorem run_warning_of_rules (env : Env) (d : DirectiveInput)
    (h : rule1 d = true ∨ rule2 d = true ∨ rule3 env d = true ∨
      rule4 env d = true ∨ rule5 d = true ∨ rule6 env d = true ∨
      rule7 d = true) :
    (Kroki.run env d).nodes.isWarning = true := by
  by_cases h1 : rule1 d = true
  · simp [run_rule1 env d h1, RunNodes.isWarning]
  · replace h1 : rule1 d = false := by simpa using h1
    by_cases h2 : rule2 d = true
    · simp [run_rule2 env d h1 h2, RunNodes.isWarning]
    · replace h2 : rule2 d = false := by simpa using h2
      by_cases h3 : rule3 env d = true
      · simp [run_rule3 env d h1 h2 h3, RunNodes.isWarning]
      · replace h3 : rule3 env d = false := by simpa using h3
        by_cases h4 : rule4 env d = true
        · simp [run_rule4 env d h1 h2 h3 h4, RunNodes.isWarning]
        · replace h4 : rule4 env d = false := by simpa using h4
          by_cases h5 : rule5 d = true
          · simp [run_rule5 env d h1 h2 h3 h4 h5, RunNodes.isWarning]
          · replace h5 : rule5 d = false := by simpa using h5
            by_cases h6 : rule6 env d = true
            · simp [run_rule6 env d h1 h2 h3 h4 h6, RunNodes.isWarning]
            · replace h6 : rule6 env d = false := by simpa using h6
              by_cases h7 : rule7 d = true
              · simp [run_rule7 env d h1 h2 h3 h4 h5 h6 h7,
                  RunNodes.isWarning]
              · replace h7 : rule7 d = false := by simpa using h7
                simp_all

/-- Claim C4: each of the four mutual-exclusion conflicts — filename
option plus filename-like argument, non-empty content plus a filename,
type option plus type-like argument, format option plus format-like
argument — makes `Kroki.run` return a warning node (never a kroki node;
the embedding is a total function, so no exception escapes). -/
theorem claim4_conflicts_yield_warning_nodes (env : Env)
    (d : DirectiveInput) :
    (rule1 d = true → (Kroki.run env d).nodes.isWarning = true) ∧
    (rule2 d = true → (Kroki.run env d).nodes.isWarning = true) ∧
    (rule5 d = true → (Kroki.run env d).nodes.isWarning = true) ∧
    (rule7 d = true → (Kroki.run env d).nodes.isWarning = true) :=
  ⟨fun h => run_warning_of_rules env d (Or.inl h),
   fun h => run_warning_of_rules env d (Or.inr (Or.inl h)),
   fun h => run_warning_of_rules env d
     (Or.inr (Or.inr (Or.inr (Or.inr (Or.inl h))))),
   fun h => run_warning_of_rules env d
     (Or.inr (Or.inr (Or.inr (Or.inr (Or.inr (Or.inr h))))))⟩

/-- Witness for C4 at a concrete type-conflicted directive. -/
theorem claim4_witness :
    rule5 dTypeConflict = true ∧
    (Kroki.run envP dTypeConflict).nodes.isWarning = true :=
  ⟨by rfl,
   (claim4_conflicts_yield_warning_nodes envP dTypeConflict).2.2.1 (by rfl)⟩

/-- Claim C5: the seven parser rules are checked in the listed order —
whenever an earlier rule fires, its diagnostic is produced regardless of
later rules, and each later rule's diagnostic is produced exactly when
all earlier rules pass. -/
theorem claim5_rules_checked_in_order (env : Env) (d : DirectiveInput) :
    (rule1 d = true →
      (Kroki.run env d).nodes = .warning msgAmbiguousFilename) ∧
    (rule1 d = false → rule2 d = true →
      (Kroki.run env d).nodes = .warning msgAmbiguousContent) ∧
    (rule1 d = false → rule2 d = false → rule3 env d = true →
      (Kroki.run env d).nodes =
        .warning (msgFileNotFound ((resolvedAbs env d).getD ""))) ∧
    (rule1 d = false → rule2 d = false → rule3 env d = false →
      rule4 env d = true →
      (Kroki.run env d).nodes = .warning msgNoContent) ∧
    (rule1 d = false → rule2 d = false → rule3 env d = false →
      rule4 env d = false → rule5 d = true →
      (Kroki.run env d).nodes = .warning msgAmbiguousType) ∧
    (rule1 d = false → rule2 d = false → rule3 env d = false →
      rule4 env d = false → rule5 d = false → rule6 env d = true →
      (Kroki.run env d).nodes = .warning msgTypeRequired) ∧
    (rule1 d = false → rule2 d = false → rule3 env d = false →
      rule4 env d = false → rule5 d = false → rule6 env d = false →
      rule7 d = true →
      (Kroki.run env d).nodes = .warning msgAmbiguousFormat) :=
  ⟨run_rule1 env d,
   run_rule2 env d,
   run_rule3 env d,
   run_rule4 env d,
   run_rule5 env d,
   fun h1 h2 h3 h4 _ h6 => run_rule6 env d h1 h2 h3 h4 h6,
   run_rule7 env d⟩

/-- Witness for C5: the conflicted input `dConflict` violates rule 1 and
receives exactly the rule-1 diagnostic. -/
theorem claim5_witness :
    (Kroki.run envP dConflict).nodes = .warning msgAmbiguousFilename :=
  (claim5_rules_checked_in_order envP dConflict).1 (by rfl)

/-- Claim C6: with a filename in effect and no type option or type-like
argument, a directive that reaches type resolution infers the diagram
type from the resolved filename's extension via `extension_type_map`;
when the extension is unmapped, the `diagram type required` warning is
returned. -/
theorem claim6_extension_type_inference (env : Env) (d : DirectiveInput)
    (f s : String)
    (h1 : rule1 d = false)
    (hf : effFilename d = some f)
    (hread : env.read (env.resolve f).2 = some s)
    (hsne : strippedEmpty s = false)
    (hto : d.options.type = none)
    (hta : (classifyArgs d.arguments).1 = none)
    (hc : strippedEmpty (contentSource d) = true) :
    (extension_type_map.lookup (splitextExt (env.resolve f).2) = none →
      (Kroki.run env d).nodes = .warning msgTypeRequired) ∧
    (∀ t, extension_type_map.lookup (splitextExt (env.resolve f).2) = some t →
      rule7 d = false →
      (Kroki.run env d).nodes = .diagram
        { type := t,
          format := if d.options.format.isSome then d.options.format
                    else (classifyArgs d.arguments).2.1,
          code := s, docname := env.docname, align := d.options.align,
          classes := d.options.classOpt.getD [] }
        d.options.caption.isSome) := by
  have h2 : rule2 d = false := by
    unfold rule2; rw [hc]; simp
  have hs : sourceAfterRead env d = some s := by
    unfold sourceAfterRead; rw [hf]; exact hread
  have hra : resolvedAbs env d = some (env.resolve f).2 := by
    unfold resolvedAbs; rw [hf]; rfl
  constructor
  · intro hlk
    rw [run_eq_afterSource env d s h1 h2 hs]
    simp [runAfterSource, hsne, hto, hta, hra, hlk]
  · intro t hlk h7
    rw [run_eq_afterSource env d s h1 h2 hs]
    unfold rule7 at h7
    simp [runAfterSource, hsne, hto, hta, hra, hlk, h7]

/-- Witness for C6: a bare `.puml` filename argument resolves to the
diagram type `plantuml`. -/
theorem claim6_witness :
    (Kroki.run envP dPuml).nodes = .diagram
      { type := "plantuml", format := none, code := "A -> B",
        docname := "index", align := none, classes := [] } false := by
  have h := (claim6_extension_type_inference envP dPuml "d.puml" "A -> B"
    (by rfl) (by rfl) (by rfl) (by rfl) (by rfl) (by rfl) (by rfl)).2
    "plantuml" (by rfl) (by rfl)
  exact h.trans (by decide)

/-- Claim C8: when the underlying render raises `KrokiError`, the HTML
embedder logs the warning carrying the diagram type, output format and
(the repr of) the diagram source, appends nothing to the output body,
and raises `SkipNode` — and, being a total function, propagates no
error. -/
theorem claim8_render_failure_logged (builder : Builder) (w : World)
    (node : kroki) (dt ds pfx : String) (options : List (String × String))
    (kc : Option String) (e : KrokiErr)
    (h : (render_kroki builder w dt ds
      (node.format.getD builder.kroki_output_format) pfx).outcome =
      .error e) :
    (render_html builder w node dt ds options pfx kc).warned =
      some (renderWarning dt (node.format.getD builder.kroki_output_format)
        ds e.message) ∧
    (render_html builder w node dt ds options pfx kc).body = [] ∧
    (render_html builder w node dt ds options pfx kc).skipNode = true := by
  simp [render_html, h]

/-- Witness for C8 with a concrete failing POST. -/
theorem claim8_witness :
    (render_html builder0 worldExc node8 "t" "a" (node_options node8)
      "kroki" none).warned =
      some (renderWarning "t" "svg" "a" KrokiErr.renderFailed.message) ∧
    (render_html builder0 worldExc node8 "t" "a" (node_options node8)
      "kroki" none).body = [] ∧
    (render_html builder0 worldExc node8 "t" "a" (node_options node8)
      "kroki" none).skipNode = true :=
  claim8_render_failure_logged builder0 worldExc node8 "t" "a" "kroki"
    (node_options node8) none .renderFailed (by rfl)

/-- Claim C3 is a code bug: the alt text of the emitted image is always
the (encoded, stripped) diagram source, never the caption, because the
node-level options dict only ever holds the docname, so
`options.get('caption', diagram_source)` always falls back to the
source.  Concretely: a directive with caption `My caption` produces a
figure-wrapped node, and the embedded image reference carries the
encoded source `A -&gt; B` as alt text, not the caption. -/
theorem claim3_caption_never_used_as_alt :
    (Kroki.run envP d3).nodes = .diagram node3 true ∧
    (html_visit_kroki builder0 w3 node3).body.getD 1 "" =
      imgAnchor relfn3 relfn3 (pyStrip (htmlEncode node3.code)) ∧
    pyStrip (htmlEncode node3.code) = "A -&gt; B" ∧
    (html_visit_kroki builder0 w3 node3).body.getD 1 "" ≠
      imgAnchor relfn3 relfn3 "My caption" := by
  have h2 : (html_visit_kroki builder0 w3 node3).body.getD 1 "" =
      imgAnchor relfn3 relfn3 "A -&gt; B" := by rfl
  refine ⟨by rfl, by rfl, by rfl, ?_⟩
  intro heq
  have hanchor : imgAnchor relfn3 relfn3 "A -&gt; B" =
      imgAnchor relfn3 relfn3 "My caption" := h2.symm.trans heq
  have hlen := congrArg String.length hanchor
  have e1 : ("A -&gt; B" : String).length = 9 := by rfl
  have e2 : ("My caption" : String).length = 10 := by rfl
  simp only [imgAnchor, String.length_append, e1, e2] at hlen
  omega

end SphinxKroki
